import Mathlib

/-!
Shallow embedding of `internal/api/client/streaming/stream.go` (GoToSocial
websocket streaming module) and proofs about its behaviour.

The file embeds:
- the initial topic-key construction from query parameters in `StreamGETHandler`;
- the access-token selection and authorization-path choice in `StreamGETHandler`;
- the control-frame processing and read loop of `readFromWSConn`, with the
  session topic set modelled as the key list of the Go map `stream.StreamTypes`;
- the write loop of `writeToWSConn` with the keepalive ticker modelled in
  discrete time units;
- the lifecycle of `handleWSConn` (spawn two pumps, wait for cancellation,
  close the connection and the hangup signal) as a small transition system.
-/

/-- Modelled from the spec: the known status-timeline vocabulary
(`streampkg.AllStatusTimelines`, defined outside this file's source); the
stream options are those enumerated by the handler's API documentation:
`user`, `public`, `public:local`, `hashtag`, `hashtag:local`, `list`,
`direct`. -/
def allStatusTimelines : List String :=
  ["user", "public", "public:local", "hashtag", "hashtag:local", "list", "direct"]

/-- The session topic set `stream.StreamTypes` is a Go `map[string]bool`;
we model it by its list of keys (duplicate-free for any real map).
`insertTopic` models `stream.StreamTypes[k] = true`: a no-op on the key set
when the key is already present. -/
def insertTopic (k : String) (ts : List String) : List String :=
  if k ∈ ts then ts else ts ++ [k]

/-- Models `delete(stream.StreamTypes, k)`: removes every entry for `k`. -/
def removeTopic (k : String) (ts : List String) : List String :=
  ts.filter (fun x => x ≠ k)

/-- An inbound control frame, decoded by `wsConn.ReadJSON` into a
`map[string]string`; only the keys `"type"`, `"stream"` and `"list"` are
consulted by the code, so we record just those three lookups
(`none` = key absent from the map). -/
structure ControlMessage where
  typeField : Option String
  streamField : Option String
  listField : Option String
deriving DecidableEq

/-- What `readFromWSConn` does with one successfully-read frame. -/
inductive FrameOutcome where
  /-- The `'type' field not provided` branch: warn and continue. -/
  | missingType
  /-- The `'stream' field not provided` branch: warn and continue. -/
  | missingStream
  /-- The `unknown 'stream' field` branch: warn and continue. -/
  | unknownStream
  /-- The `case "subscribe"` branch: topic key inserted under the lock. -/
  | subscribed (key : String)
  /-- The `case "unsubscribe"` branch: topic key removed under the lock. -/
  | unsubscribed (key : String)
  /-- The `invalid 'type' field` default branch: warn and continue. -/
  | invalidType
deriving DecidableEq

/-- The topic key built from the `stream` field, with `":" + list` appended
whenever the `list` key is present in the frame (`updateStream += ":" + updateList`). -/
def topicKey (updateStream : String) (listField : Option String) : String :=
  match listField with
  | some updateList => updateStream ++ ":" ++ updateList
  | none => updateStream

/-- One iteration of the message-handling part of `readFromWSConn`:
field checks, allow-list check, optional list qualifier, then the
`switch updateType` statement. Returns the outcome and the new topic set. -/
def processFrame (msg : ControlMessage) (ts : List String) : FrameOutcome × List String :=
  match msg.typeField with
  | none => (.missingType, ts)
  | some updateType =>
    match msg.streamField with
    | none => (.missingStream, ts)
    | some updateStream =>
      if allStatusTimelines.contains updateStream then
        let key := topicKey updateStream msg.listField
        if updateType = "subscribe" then (.subscribed key, insertTopic key ts)
        else if updateType = "unsubscribe" then (.unsubscribed key, removeTopic key ts)
        else (.invalidType, ts)
      else (.unknownStream, ts)

/-- A read failure returned by `wsConn.ReadJSON`: either a websocket close
error carrying a status code, or any other error (network failure, JSON
decode error, ...). -/
inductive ReadErr where
  | closeErr (code : Nat)
  | otherErr
deriving DecidableEq

/-- The close codes the read loop treats as expected:
`websocket.CloseNormalClosure` (1000), `websocket.CloseGoingAway` (1001),
`websocket.CloseNoStatusReceived` (1005). -/
def expectedCloseCodes : List Nat := [1000, 1001, 1005]

/-- Models `websocket.IsUnexpectedCloseError` from the gorilla/websocket
dependency: it returns true iff the error is a `*websocket.CloseError`
whose code is not in the expected list; for any error that is not a close
error it returns false. -/
def isUnexpectedCloseError (e : ReadErr) (expected : List Nat) : Bool :=
  match e with
  | .closeErr code => !(expected.contains code)
  | .otherErr => false

/-- Severity levels of the logger used by the module. -/
inductive LogLevel where
  | errorLevel
  | warnLevel
  | infoLevel
  | debugLevel
deriving DecidableEq

/-- The log statements the read loop can emit. -/
inductive LogEntry where
  /-- The `error reading from websocket` statement (`l.Errorf`). -/
  | errorReadingWS
  /-- The `received message from websocket` statement (`l.Infof`). -/
  | infoReceived
  /-- The `'type' field not provided` statement (`l.Warn`). -/
  | warnNoType
  /-- The `'stream' field not provided` statement (`l.Warn`). -/
  | warnNoStream
  /-- The `unknown 'stream' field` statement (`l.Warnf`). -/
  | warnUnknownStream
  /-- The `invalid 'type' field` statement (`l.Warnf`). -/
  | warnInvalidType
deriving DecidableEq

/-- The severity each log statement is emitted at in the source. -/
def logLevelOf : LogEntry → LogLevel
  | .errorReadingWS => .errorLevel
  | .infoReceived => .infoLevel
  | .warnNoType => .warnLevel
  | .warnNoStream => .warnLevel
  | .warnUnknownStream => .warnLevel
  | .warnInvalidType => .warnLevel

/-- Log entries produced for one frame outcome. -/
def outcomeLogs : FrameOutcome → List LogEntry
  | .missingType => [.warnNoType]
  | .missingStream => [.warnNoStream]
  | .unknownStream => [.warnUnknownStream]
  | .invalidType => [.warnInvalidType]
  | .subscribed _ => []
  | .unsubscribed _ => []

/-- Log entries produced when `ReadJSON` fails: an error-level entry only
when `websocket.IsUnexpectedCloseError` holds for the expected codes. -/
def readErrLogs (e : ReadErr) : List LogEntry :=
  if isUnexpectedCloseError e expectedCloseCodes then [.errorReadingWS] else []

/-- What one iteration of the read loop observes: the non-blocking
`ctx.Done()` check firing, or the result of `wsConn.ReadJSON`. -/
inductive ReadEvent where
  | ctxDone
  | readErr (e : ReadErr)
  | readMsg (m : ControlMessage)
deriving DecidableEq

/-- Result of running the read loop over a finite prefix of its input. -/
structure ReadLoopResult where
  /-- Final topic set (keys of `stream.StreamTypes`). -/
  topics : List String
  /-- Log entries emitted inside the loop, in order. -/
  logs : List LogEntry
  /-- True iff the loop hit `break readLoop` (after which the surrounding
  goroutine's deferred `cancel()` runs); false means the loop is still
  going when the observed events run out. -/
  stopped : Bool
deriving DecidableEq

/-- The `readLoop` of `readFromWSConn`, driven by a finite list of observed
events. `ctx.Done()` and any read error break the loop; a decoded message
is logged at info, processed by `processFrame`, and the loop continues. -/
def runReadLoop : List ReadEvent → List String → ReadLoopResult
  | [], ts => ⟨ts, [], false⟩
  | .ctxDone :: _, ts => ⟨ts, [], true⟩
  | .readErr e :: _, ts => ⟨ts, readErrLogs e, true⟩
  | .readMsg m :: rest, ts =>
    let step := processFrame m ts
    let r := runReadLoop rest step.2
    ⟨r.topics, .infoReceived :: (outcomeLogs step.1 ++ r.logs), r.stopped⟩

/-- The initial topic-key construction in `StreamGETHandler`:
`streamType := c.Query(StreamQueryKey)`, then `":" + list` is appended if
the `list` query parameter is non-empty, else `":" + tag` if the `tag`
query parameter is non-empty. -/
def initialStreamType (stream list tag : String) : String :=
  if list ≠ "" then stream ++ ":" ++ list
  else if tag ≠ "" then stream ++ ":" ++ tag
  else stream

/-- Which authorization route `StreamGETHandler` takes. -/
inductive AuthPath where
  /-- `m.processor.Stream().Authorize(ctx, token)` with the given token. -/
  | tokenPath (token : String)
  /-- `oauth.Authed(c, true, true, true, true)` as a last resort. -/
  | oauthPath
deriving DecidableEq

/-- Token selection and route choice in `StreamGETHandler`: the
`access_token` query parameter, falling back to the access-token header
when the query parameter is empty; the token route is taken whenever the
resulting token is non-empty, otherwise ambient oauth. -/
def authPath (queryToken headerToken : String) : AuthPath :=
  let token := if queryToken = "" then headerToken else queryToken
  if token = "" then .oauthPath else .tokenPath token

/-- The request parameters `StreamGETHandler` reads (absent query
parameters and headers read as the empty string, as with gin's
`c.Query` and `c.GetHeader`). -/
structure StreamRequest where
  queryToken : String
  headerToken : String
  stream : String
  list : String
  tag : String
deriving DecidableEq

/-- Outcomes of the external collaborators `StreamGETHandler` calls, taken
as inputs of the model: the token authorizer, the ambient oauth check, the
hub's `Open`, and the websocket upgrader. -/
structure HandlerEnv where
  /-- Whether `m.processor.Stream().Authorize` accepts the supplied token. -/
  tokenAuthOk : Bool
  /-- Whether `oauth.Authed` succeeds. -/
  oauthOk : Bool
  /-- Whether `m.processor.Stream().Open` fails for a reason other than
  stream-type validation. -/
  openOtherFailure : Bool
  /-- Whether `m.wsUpgrade.Upgrade` succeeds. -/
  upgradeOk : Bool
deriving DecidableEq

/-- How a call of `StreamGETHandler` ends. -/
inductive HandlerResult where
  /-- `apiutil.ErrorHandler` with an unauthorized error; returned before
  `Open` and before any upgrade. -/
  | unauthorizedResponse
  /-- `apiutil.ErrorHandler` with the bad-request `RequestError` returned
  by `Open` for a missing or empty stream parameter; before any upgrade. -/
  | badRequestResponse
  /-- `apiutil.ErrorHandler` with some other error returned by `Open`;
  before any upgrade. -/
  | openErrorResponse
  /-- The upgrade was attempted and failed: the error is logged and the
  handler itself closes `stream.Hangup`. -/
  | upgradeFailedHangupClosed
  /-- The upgrade succeeded and `handleWSConn` was spawned with the given
  initial stream type. -/
  | streaming (streamType : String)
deriving DecidableEq

/-- A handler outcome together with whether `m.wsUpgrade.Upgrade` was ever
called on the connection. -/
structure HandlerTrace where
  result : HandlerResult
  upgradeAttempted : Bool
deriving DecidableEq

/-- The authorization outcome for a request: which external check decides
it and what that check answers. -/
def authOk (req : StreamRequest) (env : HandlerEnv) : Bool :=
  match authPath req.queryToken req.headerToken with
  | .tokenPath _ => env.tokenAuthOk
  | .oauthPath => env.oauthOk

/-- Modelled from the spec: the validation inside the hub's
`m.processor.Stream().Open` (defined outside this file's source), which
fails with a bad-request `RequestError` when the required `stream`
parameter is absent or empty; any other hub failure is environment-driven. -/
def openFails (streamParam : String) (env : HandlerEnv) : Bool :=
  streamParam = "" || env.openOtherFailure

/-- Control flow of `StreamGETHandler`: token selection and authorization,
initial stream-type construction, `Open`, then the websocket upgrade. -/
def streamGETHandler (req : StreamRequest) (env : HandlerEnv) : HandlerTrace :=
  if authOk req env = false then ⟨.unauthorizedResponse, false⟩
  else
    let streamType := initialStreamType req.stream req.list req.tag
    if req.stream = "" then ⟨.badRequestResponse, false⟩
    else if env.openOtherFailure then ⟨.openErrorResponse, false⟩
    else if env.upgradeOk then ⟨.streaming streamType, true⟩
    else ⟨.upgradeFailedHangupClosed, true⟩

/-- One discrete observation of the `writeLoop` in `writeToWSConn`. The
keepalive ticker `pinger` is modelled in whole time units: it fires after
its countdown reaches zero, and `pinger.Reset(m.dTicker)` restarts the
countdown at the base interval. -/
inductive WriterStep where
  /-- One time unit passes with no message on `stream.Messages`; the
  ticker countdown decreases and the ticker fires when it runs out, upon
  which a ping control frame is written with the given transport result. -/
  | elapse (pingOk : Bool)
  /-- A message arrives on `stream.Messages` and `wsConn.WriteJSON` is
  called with the given transport result. -/
  | message (writeOk : Bool)
  /-- The `ctx.Done()` case of the select fires. -/
  | cancel
deriving DecidableEq

/-- The `writeLoop` of `writeToWSConn`, driven by a finite schedule of
observations, starting with `c` time units left on the ticker and base
interval `d`. Returns the number of ping frames successfully written and
whether the loop hit `break writeLoop`. A successful `WriteJSON` resets
the ticker to the full base interval; a failed write of either kind breaks
the loop; the ticker re-arms at the base interval after it fires. -/
def writerRun (d : Nat) : List WriterStep → Nat → Nat × Bool
  | [], _ => (0, false)
  | .cancel :: _, _ => (0, true)
  | .message writeOk :: rest, _ =>
    if writeOk then writerRun d rest d
    else (0, true)
  | .elapse pingOk :: rest, c =>
    if c ≤ 1 then
      if pingOk then
        let r := writerRun d rest d
        (r.1 + 1, r.2)
      else (0, true)
    else writerRun d rest (c - 1)

/-- State of one pump goroutine of `handleWSConn`. -/
inductive PumpState where
  | notStarted
  | running
  | exited
deriving DecidableEq

/-- Progress of the code that tears the session down: `StreamGETHandler`
up to the upgrade, then the tail of `handleWSConn` after `<-ctx.Done()`. -/
inductive CoordPhase where
  /-- `Open` has succeeded; the upgrade has not happened yet. -/
  | start
  /-- The upgrade failed: `StreamGETHandler` itself ran
  `close(stream.Hangup)` and returned; `handleWSConn` never runs. -/
  | handlerClosedHangup
  /-- `handleWSConn` is blocked on `<-ctx.Done()`. -/
  | waiting
  /-- `handleWSConn` woke and ran `wsConn.Close()`. -/
  | closedConn
  /-- `handleWSConn` ran `close(stream.Hangup)`. -/
  | closedHangup
  /-- `handleWSConn` ran `pinger.Stop()` and returned. -/
  | done
deriving DecidableEq

/-- State of one streaming session after `Open` has succeeded: the two
pump goroutines, the shared `context.WithCancel` scope, the coordinator's
program position, and how many times `close(stream.Hangup)` has run. -/
structure SessionState where
  reader : PumpState
  writer : PumpState
  cancelled : Bool
  phase : CoordPhase
  hangupCloses : Nat
deriving DecidableEq

/-- The session right after `m.processor.Stream().Open` returns inside
`StreamGETHandler`, before the upgrade. -/
def initialSession : SessionState :=
  ⟨.notStarted, .notStarted, false, .start, 0⟩

/-- The atomic events of a session's lifetime, each one step of one of the
concurrently scheduled tasks. -/
inductive SessAction where
  /-- `m.wsUpgrade.Upgrade` succeeds: `handleWSConn` is spawned, creates
  the cancel scope, starts both pump goroutines and blocks on `ctx.Done()`. -/
  | upgradeOk
  /-- `m.wsUpgrade.Upgrade` fails: the handler logs, runs
  `close(stream.Hangup)` and returns. -/
  | upgradeFail
  /-- `m.readFromWSConn` returns (read failure or observed cancellation)
  and the goroutine's deferred `cancel()` runs. -/
  | readerExit
  /-- `m.writeToWSConn` returns (write failure or observed cancellation)
  and the goroutine's deferred `cancel()` runs. -/
  | writerExit
  /-- `handleWSConn` wakes from `<-ctx.Done()` and runs `wsConn.Close()`. -/
  | coordCloseConn
  /-- `handleWSConn` runs `close(stream.Hangup)`. -/
  | coordCloseHangup
  /-- `handleWSConn` runs `pinger.Stop()` and returns. -/
  | coordStopTicker
deriving DecidableEq

/-- One interleaving step: `some` of the next state when the action is
enabled in `s`, `none` when it is not. `cancel()` is idempotent, so both
pump exits simply set the flag. -/
def applyAction (s : SessionState) (a : SessAction) : Option SessionState :=
  match a with
  | .upgradeOk =>
    if s.phase = .start then
      some { s with reader := .running, writer := .running, phase := .waiting }
    else none
  | .upgradeFail =>
    if s.phase = .start then
      some { s with phase := .handlerClosedHangup, hangupCloses := s.hangupCloses + 1 }
    else none
  | .readerExit =>
    if s.reader = .running then some { s with reader := .exited, cancelled := true }
    else none
  | .writerExit =>
    if s.writer = .running then some { s with writer := .exited, cancelled := true }
    else none
  | .coordCloseConn =>
    if s.phase = .waiting ∧ s.cancelled = true then some { s with phase := .closedConn }
    else none
  | .coordCloseHangup =>
    if s.phase = .closedConn then
      some { s with phase := .closedHangup, hangupCloses := s.hangupCloses + 1 }
    else none
  | .coordStopTicker =>
    if s.phase = .closedHangup then some { s with phase := .done }
    else none

/-- Run a finite schedule of session steps; `none` when some step was not
enabled (no real interleaving takes it). -/
def runSession : SessionState → List SessAction → Option SessionState
  | s, [] => some s
  | s, a :: rest =>
    match applyAction s a with
    | some s2 => runSession s2 rest
    | none => none

/-- How many times `close(stream.Hangup)` has run by each coordinator
phase. -/
def closesOfPhase : CoordPhase → Nat
  | .handlerClosedHangup => 1
  | .closedHangup => 1
  | .done => 1
  | _ => 0

/-- Invariant of every reachable session state: the hangup-close count is
determined by the coordinator phase (so it never exceeds one), the cancel
flag is only ever set by a pump exit, and the coordinator only moves past
`waiting` once the scope is cancelled. -/
def sessionInv (s : SessionState) : Prop :=
  s.hangupCloses = closesOfPhase s.phase
  ∧ (s.cancelled = true → s.reader = .exited ∨ s.writer = .exited)
  ∧ ((s.phase = .closedConn ∨ s.phase = .closedHangup ∨ s.phase = .done) → s.cancelled = true)
  ∧ (s.phase = .start → s.reader = .notStarted ∧ s.writer = .notStarted ∧ s.cancelled = false)

/-- A topic key the inbound pump can legitimately produce: a vocabulary
member, or a vocabulary member with `":" + list` appended. -/
def keyAllowed (k : String) : Prop :=
  k ∈ allStatusTimelines ∨ ∃ v l, v ∈ allStatusTimelines ∧ k = v ++ ":" ++ l

/-- The frame outcomes the spec calls malformed: missing `type`, missing
`stream`, `stream` outside the vocabulary, unknown `type`. -/
def isMalformedOutcome : FrameOutcome → Bool
  | .missingType => true
  | .missingStream => true
  | .unknownStream => true
  | .invalidType => true
  | .subscribed _ => false
  | .unsubscribed _ => false

theorem sessionInv_initial : sessionInv initialSession := by
  simp [sessionInv, initialSession, closesOfPhase]

theorem sessionInv_step (s s2 : SessionState) (a : SessAction)
    (h : sessionInv s) (ha : applyAction s a = some s2) : sessionInv s2 := by
  obtain ⟨h1, h2, h3, h4⟩ := h
  cases a <;> simp only [applyAction] at ha <;> split at ha <;>
    first
      | (injection ha with ha; subst ha; simp_all [sessionInv, closesOfPhase])
      | injection ha

theorem sessionInv_run (acts : List SessAction) :
    ∀ s0 s, sessionInv s0 → runSession s0 acts = some s → sessionInv s := by
  induction acts with
  | nil =>
    intro s0 s h0 hr
    simp only [runSession] at hr
    exact (Option.some_inj.mp hr) ▸ h0
  | cons a rest ih =>
    intro s0 s h0 hr
    simp only [runSession] at hr
    cases hap : applyAction s0 a with
    | none => rw [hap] at hr; exact absurd hr (by simp)
    | some s1 =>
      rw [hap] at hr
      exact ih s1 s (sessionInv_step s0 s1 a h0 hap) hr

theorem mem_insertTopic_self (k : String) (ts : List String) : k ∈ insertTopic k ts := by
  unfold insertTopic
  split
  · assumption
  · simp

theorem mem_insertTopic_iff (k a : String) (ts : List String) :
    a ∈ insertTopic k ts ↔ a ∈ ts ∨ a = k := by
  unfold insertTopic
  split
  case isTrue h =>
    constructor
    · exact Or.inl
    · rintro (h1 | rfl)
      · exact h1
      · exact h
  case isFalse h => simp

theorem insertTopic_nodup (k : String) (ts : List String) (h : ts.Nodup) :
    (insertTopic k ts).Nodup := by
  unfold insertTopic
  split
  case isTrue => exact h
  case isFalse hk =>
    refine h.append (List.nodup_singleton k) ?_
    intro a ha hb
    rw [List.mem_singleton] at hb
    exact hk (hb ▸ ha)

theorem insertTopic_mem_eq (k : String) (ts : List String) (h : k ∈ ts) :
    insertTopic k ts = ts := by
  rw [insertTopic, if_pos h]

theorem processFrame_subscribe (v : String) (lf : Option String) (ts : List String)
    (hv : allStatusTimelines.contains v = true) :
    processFrame ⟨some "subscribe", some v, lf⟩ ts
      = (.subscribed (topicKey v lf), insertTopic (topicKey v lf) ts) := by
  have hvm : v ∈ allStatusTimelines := by simpa using hv
  simp [processFrame, hvm]

theorem processFrame_unsubscribe (v : String) (lf : Option String) (ts : List String)
    (hv : allStatusTimelines.contains v = true) :
    processFrame ⟨some "unsubscribe", some v, lf⟩ ts
      = (.unsubscribed (topicKey v lf), removeTopic (topicKey v lf) ts) := by
  have hvm : v ∈ allStatusTimelines := by simpa using hv
  simp [processFrame, hvm]

theorem mem_processFrame_topics (m : ControlMessage) (ts : List String) (k : String)
    (hk : k ∈ (processFrame m ts).2) : k ∈ ts ∨ keyAllowed k := by
  obtain ⟨tf, sf, lf⟩ := m
  cases tf with
  | none => exact Or.inl (by simpa [processFrame] using hk)
  | some t =>
    cases sf with
    | none => exact Or.inl (by simpa [processFrame] using hk)
    | some v =>
      by_cases hv : allStatusTimelines.contains v = true
      · have hvm : v ∈ allStatusTimelines := by simpa using hv
        by_cases ht : t = "subscribe"
        · subst ht
          rw [processFrame_subscribe v lf ts hv] at hk
          rcases (mem_insertTopic_iff _ _ _).mp hk with h | rfl
          · exact Or.inl h
          · refine Or.inr ?_
            cases lf with
            | none => exact Or.inl hvm
            | some l => exact Or.inr ⟨v, l, hvm, rfl⟩
        · by_cases ht2 : t = "unsubscribe"
          · subst ht2
            rw [processFrame_unsubscribe v lf ts hv] at hk
            exact Or.inl (List.mem_of_mem_filter hk)
          · have : (processFrame ⟨some t, some v, lf⟩ ts).2 = ts := by
              simp [processFrame, hvm, ht, ht2]
            exact Or.inl (this ▸ hk)
      · have hvm : v ∉ allStatusTimelines := by simpa using hv
        have : (processFrame ⟨some t, some v, lf⟩ ts).2 = ts := by
          simp [processFrame, hvm]
        exact Or.inl (this ▸ hk)

theorem processFrame_malformed_topics (m : ControlMessage) (ts : List String)
    (h : isMalformedOutcome (processFrame m ts).1 = true) : (processFrame m ts).2 = ts := by
  obtain ⟨tf, sf, lf⟩ := m
  cases tf with
  | none => simp [processFrame]
  | some t =>
    cases sf with
    | none => simp [processFrame]
    | some v =>
      by_cases hv : allStatusTimelines.contains v = true
      · have hvm : v ∈ allStatusTimelines := by simpa using hv
        by_cases ht : t = "subscribe"
        · subst ht
          rw [processFrame_subscribe v lf ts hv] at h
          simp [isMalformedOutcome] at h
        · by_cases ht2 : t = "unsubscribe"
          · subst ht2
            rw [processFrame_unsubscribe v lf ts hv] at h
            simp [isMalformedOutcome] at h
          · simp [processFrame, hvm, ht, ht2]
      · have hvm : v ∉ allStatusTimelines := by simpa using hv
        simp [processFrame, hvm]

theorem runReadLoop_topics_sub (evs : List ReadEvent) :
    ∀ ts k, k ∈ (runReadLoop evs ts).topics → k ∈ ts ∨ keyAllowed k := by
  induction evs with
  | nil => intro ts k hk; exact Or.inl (by simpa [runReadLoop] using hk)
  | cons e rest ih =>
    intro ts k hk
    cases e with
    | ctxDone => exact Or.inl (by simpa [runReadLoop] using hk)
    | readErr er => exact Or.inl (by simpa [runReadLoop] using hk)
    | readMsg m =>
      simp only [runReadLoop] at hk
      rcases ih (processFrame m ts).2 k hk with h | h
      · exact mem_processFrame_topics m ts k h
      · exact Or.inr h

theorem runReadLoop_stopped_cause (evs : List ReadEvent) :
    ∀ ts, (runReadLoop evs ts).stopped = true →
      ∃ e ∈ evs, e = ReadEvent.ctxDone ∨ ∃ er, e = ReadEvent.readErr er := by
  induction evs with
  | nil => intro ts h; simp [runReadLoop] at h
  | cons e rest ih =>
    intro ts h
    cases e with
    | ctxDone => exact ⟨.ctxDone, by simp, Or.inl rfl⟩
    | readErr er => exact ⟨.readErr er, by simp, Or.inr ⟨er, rfl⟩⟩
    | readMsg m =>
      simp only [runReadLoop] at h
      obtain ⟨e2, he2, hc⟩ := ih (processFrame m ts).2 h
      exact ⟨e2, List.mem_cons_of_mem _ he2, hc⟩

theorem writerRun_quiet_lt (d : Nat) :
    ∀ k c, k < c → writerRun d (List.replicate k (.elapse true)) c = (0, false) := by
  intro k
  induction k with
  | zero => intro c _; simp [writerRun]
  | succ n ih =>
    intro c hc
    rw [List.replicate_succ]
    have h1 : ¬c ≤ 1 := by omega
    simp only [writerRun, if_neg h1]
    exact ih (c - 1) (by omega)

theorem writerRun_quiet_exact (d : Nat) :
    ∀ c, 1 ≤ c → writerRun d (List.replicate c (.elapse true)) c = (1, false) := by
  intro c
  induction c with
  | zero => intro h; omega
  | succ n ih =>
    intro _
    rw [List.replicate_succ]
    by_cases hn : n = 0
    · subst hn
      simp [writerRun]
    · have h1 : ¬n + 1 ≤ 1 := by omega
      simp only [writerRun, if_neg h1]
      have : n + 1 - 1 = n := by omega
      rw [this]
      exact ih (by omega)

/-- C1 (amended): for every schedule of session steps, the hangup signal is
closed at most once; when the teardown in `handleWSConn` completes, or when
the handler aborts a failed upgrade, it has been closed exactly once; and
whenever the coordinator has performed the close, the shared scope was
already cancelled, so at least one pump had exited — though the other pump
may still be running, which is what bars the stronger claim that the close
happens only after both pumps have stopped. -/
theorem claim_C1 (acts : List SessAction) (s : SessionState)
    (h : runSession initialSession acts = some s) :
    s.hangupCloses ≤ 1
    ∧ ((s.phase = CoordPhase.closedHangup ∨ s.phase = CoordPhase.done) →
        (s.reader = PumpState.exited ∨ s.writer = PumpState.exited))
    ∧ (s.phase = CoordPhase.done → s.hangupCloses = 1)
    ∧ (s.phase = CoordPhase.handlerClosedHangup → s.hangupCloses = 1) := by
  obtain ⟨h1, h2, h3, h4⟩ := sessionInv_run acts initialSession s sessionInv_initial h
  refine ⟨?_, ?_, ?_, ?_⟩
  · rw [h1]
    cases hp : s.phase <;> simp [closesOfPhase]
  · intro hp
    exact h2 (h3 (Or.inr hp))
  · intro hp
    rw [h1, hp]
    rfl
  · intro hp
    rw [h1, hp]
    rfl

/-- C1 witness: the full teardown schedule — upgrade, both pumps exit, the
coordinator closes the connection and the hangup signal and stops the
ticker — reaches the done state with the hangup signal closed exactly once. -/
theorem claim_C1_witness :
    (⟨PumpState.exited, PumpState.exited, true, CoordPhase.done, 1⟩ : SessionState).hangupCloses ≤ 1
    ∧ (((⟨PumpState.exited, PumpState.exited, true, CoordPhase.done, 1⟩ : SessionState).phase = CoordPhase.closedHangup
          ∨ (⟨PumpState.exited, PumpState.exited, true, CoordPhase.done, 1⟩ : SessionState).phase = CoordPhase.done) →
        ((⟨PumpState.exited, PumpState.exited, true, CoordPhase.done, 1⟩ : SessionState).reader = PumpState.exited
          ∨ (⟨PumpState.exited, PumpState.exited, true, CoordPhase.done, 1⟩ : SessionState).writer = PumpState.exited))
    ∧ ((⟨PumpState.exited, PumpState.exited, true, CoordPhase.done, 1⟩ : SessionState).phase = CoordPhase.done →
        (⟨PumpState.exited, PumpState.exited, true, CoordPhase.done, 1⟩ : SessionState).hangupCloses = 1)
    ∧ ((⟨PumpState.exited, PumpState.exited, true, CoordPhase.done, 1⟩ : SessionState).phase = CoordPhase.handlerClosedHangup →
        (⟨PumpState.exited, PumpState.exited, true, CoordPhase.done, 1⟩ : SessionState).hangupCloses = 1) :=
  claim_C1
    [SessAction.upgradeOk, SessAction.readerExit, SessAction.writerExit,
     SessAction.coordCloseConn, SessAction.coordCloseHangup, SessAction.coordStopTicker]
    ⟨PumpState.exited, PumpState.exited, true, CoordPhase.done, 1⟩ (by decide)

/-- C1 counterexample: two real executions refute the claim as stated.
First, when the upgrade fails, `StreamGETHandler` itself — not the
coordinator — closes the hangup signal, with neither pump ever started.
Second, an interleaving in which the reader pump exits, the coordinator
wakes, closes the connection and closes the hangup signal while the writer
pump is still running: the close is not "only after both pumps have
stopped". -/
theorem claim_C1_counterexample :
    runSession initialSession [SessAction.upgradeFail]
      = some ⟨PumpState.notStarted, PumpState.notStarted, false, CoordPhase.handlerClosedHangup, 1⟩
    ∧ runSession initialSession
        [SessAction.upgradeOk, SessAction.readerExit, SessAction.coordCloseConn,
         SessAction.coordCloseHangup]
      = some ⟨PumpState.exited, PumpState.running, true, CoordPhase.closedHangup, 1⟩ := by
  decide

/-- C2 (amended): every key the inbound pump's loop ever puts into the
topic set (beyond what was already there) is either a member of the
allow-list vocabulary, or a vocabulary member with `":" + list` appended;
arbitrary client-chosen base keys never enter the set. -/
theorem claim_C2 (evs : List ReadEvent) (ts : List String) (k : String)
    (h : k ∈ (runReadLoop evs ts).topics) : k ∈ ts ∨ keyAllowed k :=
  runReadLoop_topics_sub evs ts k h

/-- C2 witness: a subscribe frame for the vocabulary key `public` puts
`public` into the topic set, and `public` satisfies the allowed-key shape. -/
theorem claim_C2_witness :
    "public" ∈ ([] : List String) ∨ keyAllowed "public" :=
  claim_C2 [ReadEvent.readMsg ⟨some "subscribe", some "public", none⟩] [] "public"
    (by decide)

/-- C2 counterexample: a subscribe frame with `stream = "list"` and
`list = "abc"` makes the pump insert the key `list:abc`, which is not a
member of the allow-list vocabulary — so, read literally, a key outside
the vocabulary is inserted. -/
theorem claim_C2_counterexample :
    (runReadLoop [ReadEvent.readMsg ⟨some "subscribe", some "list", some "abc"⟩] []).topics
      = ["list:abc"]
    ∧ ("list:abc" ∈ allStatusTimelines → False) := by
  decide

/-- C3: for every request whose required `stream` parameter is absent or
empty and which passes authorization, `StreamGETHandler` responds with the
bad-request `RequestError` and the websocket upgrade is never attempted. -/
theorem claim_C3 (req : StreamRequest) (env : HandlerEnv)
    (hs : req.stream = "") (hauth : authOk req env = true) :
    streamGETHandler req env = ⟨HandlerResult.badRequestResponse, false⟩ := by
  simp [streamGETHandler, hauth, hs]

/-- C3 witness: an authorized request with an empty `stream` parameter gets
the bad-request response with no upgrade attempt. -/
theorem claim_C3_witness :
    streamGETHandler ⟨"tok", "", "", "", ""⟩ ⟨true, true, false, true⟩
      = ⟨HandlerResult.badRequestResponse, false⟩ :=
  claim_C3 ⟨"tok", "", "", "", ""⟩ ⟨true, true, false, true⟩ (by decide) (by decide)

/-- C4 (amended): an expected close (normal closure, going-away, no-status)
produces no log entry at all; a close error with any other code produces
exactly the error-level entry; a read failure that is not a close error
(which is what bars the stronger claim that any other read failure is
logged at error level) also produces no error-level entry; and in every
case the read loop breaks, after which the reader goroutine's deferred
cancel fires on the shared scope. -/
theorem claim_C4 (e : ReadErr) (rest : List ReadEvent) (ts : List String) :
    ((∃ c, e = ReadErr.closeErr c ∧ c ∈ expectedCloseCodes) → readErrLogs e = [])
    ∧ (∀ c, e = ReadErr.closeErr c → c ∉ expectedCloseCodes →
        readErrLogs e = [LogEntry.errorReadingWS])
    ∧ (e = ReadErr.otherErr → readErrLogs e = [])
    ∧ runReadLoop (ReadEvent.readErr e :: rest) ts = ⟨ts, readErrLogs e, true⟩
    ∧ (∀ s : SessionState, s.reader = PumpState.running →
        applyAction s SessAction.readerExit
          = some { s with reader := PumpState.exited, cancelled := true }) := by
  refine ⟨?_, ?_, ?_, rfl, ?_⟩
  · rintro ⟨c, rfl, hc⟩
    simp [readErrLogs, isUnexpectedCloseError, hc]
  · rintro c rfl hc
    simp [readErrLogs, isUnexpectedCloseError, hc]
  · rintro rfl
    simp [readErrLogs, isUnexpectedCloseError]
  · intro s h
    simp [applyAction, h]

/-- C4 witness: a normal-closure close error (code 1000) produces no log
entry. -/
theorem claim_C4_witness :
    readErrLogs (ReadErr.closeErr 1000) = [] :=
  (claim_C4 (ReadErr.closeErr 1000) [] []).1 ⟨1000, rfl, by decide⟩

/-- C4 counterexample: a read failure that is not a close error — a JSON
decode error or a plain network failure — is not an unexpected close for
the classifier, so no error-level entry is produced, although the loop
still ends; this refutes the claim that any non-expected-close read
failure produces an error-level log entry. -/
theorem claim_C4_counterexample :
    isUnexpectedCloseError ReadErr.otherErr expectedCloseCodes = false
    ∧ readErrLogs ReadErr.otherErr = []
    ∧ (runReadLoop [ReadEvent.readErr ReadErr.otherErr] []).stopped = true := by
  decide

/-- C5: for a request with a non-empty `stream` parameter, the initial
topic key is `stream` alone when both `list` and `tag` are empty,
`stream:list` when `list` is non-empty, and `stream:tag` when `list` is
empty and `tag` is non-empty — `list` takes precedence over `tag`. -/
theorem claim_C5 (stream list tag : String) (hs : stream ≠ "") :
    (list ≠ "" → initialStreamType stream list tag = stream ++ ":" ++ list)
    ∧ (list = "" → tag ≠ "" → initialStreamType stream list tag = stream ++ ":" ++ tag)
    ∧ (list = "" → tag = "" → initialStreamType stream list tag = stream) := by
  refine ⟨?_, ?_, ?_⟩ <;> intros <;> simp [initialStreamType, *]

/-- C5 witness: the spec's example `stream=hashtag&tag=foo` with no list
yields the initial topic key `hashtag:foo`. -/
theorem claim_C5_witness :
    initialStreamType "hashtag" "" "foo" = "hashtag" ++ ":" ++ "foo" :=
  (claim_C5 "hashtag" "" "foo" (by decide)).2.1 rfl (by decide)

/-- C6: a malformed frame — missing `type`, missing `stream`, `stream`
outside the vocabulary, or unknown `type` — leaves the topic set unchanged
and the loop continues, emitting only the info entry and the outcome's
warn entry; and the loop can only ever break at a ctx-done or read-failure
event, never at a decoded frame. -/
theorem claim_C6 (m : ControlMessage) (ts : List String) (evs : List ReadEvent)
    (hm : isMalformedOutcome (processFrame m ts).1 = true) :
    (processFrame m ts).2 = ts
    ∧ runReadLoop (ReadEvent.readMsg m :: evs) ts
        = ⟨(runReadLoop evs ts).topics,
           LogEntry.infoReceived :: (outcomeLogs (processFrame m ts).1 ++ (runReadLoop evs ts).logs),
           (runReadLoop evs ts).stopped⟩
    ∧ ((runReadLoop (ReadEvent.readMsg m :: evs) ts).stopped = true →
        ∃ e ∈ evs, e = ReadEvent.ctxDone ∨ ∃ er, e = ReadEvent.readErr er) := by
  have ht := processFrame_malformed_topics m ts hm
  refine ⟨ht, ?_, ?_⟩
  · simp only [runReadLoop, ht]
  · intro h
    obtain ⟨e, he, hc⟩ := runReadLoop_stopped_cause (ReadEvent.readMsg m :: evs) ts h
    rcases List.mem_cons.mp he with rfl | he2
    · rcases hc with h1 | ⟨er, h2⟩
      · exact absurd h1 (by simp)
      · exact absurd h2 (by simp)
    · exact ⟨e, he2, hc⟩

/-- C6 witness: a frame with no fields at all is malformed (missing
`type`), leaves the empty topic set unchanged, logs info plus one warn,
and does not stop the loop. -/
theorem claim_C6_witness :
    (processFrame ⟨none, none, none⟩ []).2 = ([] : List String) :=
  (claim_C6 ⟨none, none, none⟩ [] [] (by decide)).1

/-- C7: in the outbound pump, every successful event write resets the
keepalive ticker to the full base interval `d`; from a freshly reset
ticker, `d` quiet time units produce exactly one ping frame; and after a
successful event write, fewer than `d` quiet units produce no ping at
all. -/
theorem claim_C7 (d : Nat) (hd : 1 ≤ d) :
    (∀ (c : Nat) (rest : List WriterStep),
        writerRun d (WriterStep.message true :: rest) c = writerRun d rest d)
    ∧ writerRun d (List.replicate d (WriterStep.elapse true)) d = (1, false)
    ∧ (∀ (c k : Nat), k < d →
        writerRun d (WriterStep.message true :: List.replicate k (WriterStep.elapse true)) c
          = (0, false)) := by
  refine ⟨?_, writerRun_quiet_exact d d hd, ?_⟩
  · intro c rest
    simp [writerRun]
  · intro c k hk
    have hstep : writerRun d (WriterStep.message true :: List.replicate k (WriterStep.elapse true)) c
        = writerRun d (List.replicate k (WriterStep.elapse true)) d := by
      simp [writerRun]
    rw [hstep]
    exact writerRun_quiet_lt d k d hk

/-- C7 witness: with base interval 2, two quiet units after a reset emit
exactly one ping and leave the loop running. -/
theorem claim_C7_witness :
    writerRun 2 (List.replicate 2 (WriterStep.elapse true)) 2 = (1, false) :=
  (claim_C7 2 (by decide)).2.1

/-- C8: for well-formed frames whose `list` field is present — including
present with the empty-string value — the pump appends `":" + list` to the
topic key and uses that composite key for both insert and remove. -/
theorem claim_C8 (v l : String) (ts : List String)
    (hv : allStatusTimelines.contains v = true) :
    processFrame ⟨some "subscribe", some v, some l⟩ ts
      = (.subscribed (v ++ ":" ++ l), insertTopic (v ++ ":" ++ l) ts)
    ∧ processFrame ⟨some "unsubscribe", some v, some l⟩ ts
      = (.unsubscribed (v ++ ":" ++ l), removeTopic (v ++ ":" ++ l) ts) :=
  ⟨processFrame_subscribe v (some l) ts hv, processFrame_unsubscribe v (some l) ts hv⟩

/-- C8 witness: a subscribe frame with `stream = "user"` and `list` present
but empty inserts the key `user:` (colon appended even for the empty
string). -/
theorem claim_C8_witness :
    processFrame ⟨some "subscribe", some "user", some ""⟩ []
      = (.subscribed ("user" ++ ":" ++ ""), insertTopic ("user" ++ ":" ++ "") []) :=
  (claim_C8 "user" "" [] (by decide)).1

/-- C9: processing two consecutive subscribe frames for the same topic key
against any duplicate-free topic set leaves exactly one membership entry
for that key — the insert is idempotent. -/
theorem claim_C9 (v : String) (lf : Option String) (ts : List String)
    (hv : allStatusTimelines.contains v = true) (hnd : ts.Nodup) :
    ((processFrame ⟨some "subscribe", some v, lf⟩
        (processFrame ⟨some "subscribe", some v, lf⟩ ts).2).2).count (topicKey v lf) = 1 := by
  rw [processFrame_subscribe v lf ts hv]
  rw [processFrame_subscribe v lf _ hv]
  rw [insertTopic_mem_eq _ _ (mem_insertTopic_self _ _)]
  exact List.count_eq_one_of_mem (insertTopic_nodup _ _ hnd) (mem_insertTopic_self _ _)

/-- C9 witness: subscribing twice to `public` from the empty topic set
leaves exactly one entry for `public`. -/
theorem claim_C9_witness :
    ((processFrame ⟨some "subscribe", some "public", none⟩
        (processFrame ⟨some "subscribe", some "public", none⟩ []).2).2).count
      (topicKey "public" none) = 1 :=
  claim_C9 "public" none [] (by decide) (by decide)

/-- C10: the handler falls back to the header token when the access-token
query parameter is empty; a non-empty query token always wins; the ambient
oauth route is taken exactly when both tokens are empty; and any
token-route request — query- or header-supplied — is decided by the same
token authorizer. -/
theorem claim_C10 (queryTok headerTok : String) :
    (queryTok = "" → headerTok ≠ "" → authPath queryTok headerTok = AuthPath.tokenPath headerTok)
    ∧ (queryTok ≠ "" → authPath queryTok headerTok = AuthPath.tokenPath queryTok)
    ∧ (authPath queryTok headerTok = AuthPath.oauthPath ↔ queryTok = "" ∧ headerTok = "")
    ∧ (∀ (req : StreamRequest) (env : HandlerEnv) (t : String),
        authPath req.queryToken req.headerToken = AuthPath.tokenPath t →
        authOk req env = env.tokenAuthOk) := by
  refine ⟨?_, ?_, ?_, ?_⟩
  · intro h1 h2
    simp [authPath, h1, h2]
  · intro h1
    simp [authPath, h1]
  · by_cases h1 : queryTok = "" <;> by_cases h2 : headerTok = "" <;>
      simp [authPath, h1, h2]
  · intro req env t h
    simp [authOk, h]

/-- C10 witness: with an empty query token and header token `abc`, the
handler authorizes via the token route with the header token. -/
theorem claim_C10_witness :
    authPath "" "abc" = AuthPath.tokenPath "abc" :=
  (claim_C10 "" "abc").1 rfl (by decide)
